import Mathlib

/-
  Verification of the mach session middleware
  (src/modules/middleware/session.js) against its design spec.

  The middleware and its helpers (`Session.prototype.apply`,
  `Session.prototype.encodeSession`, `Session.prototype.decodeCookie`,
  `_makeHash`, `submodules`) are shallowly embedded below.  External
  collaborators that are not part of this repository's source
  (`utils.encodeBase64`, `utils.decodeBase64`, `utils.makeHash`, the
  store, the downstream app) are parameters of the model, constrained
  only where a claim needs a property of them.  Promise resolution is
  modelled with `Except String`; mutation of `request.session` and of
  the response headers, calls into the store, and the error log are
  recorded in an event trace so that "X is never called / never set"
  claims are expressible.
-/

namespace Mach

/-! ### JavaScript string primitives used by the source -/

/-- `true` iff `pat` occurs in `s` starting at character index `i`
    (JS `String.prototype.lastIndexOf` semantics search these positions). -/
def occursAt (s pat : List Char) (i : Nat) : Bool :=
  decide ((s.drop i).take pat.length = pat)

/-- Largest `i ≤ n` at which `pat` occurs in `s`, if any. -/
def lastOccAux (s pat : List Char) : Nat → Option Nat
  | 0 => if occursAt s pat 0 then some 0 else none
  | i + 1 => if occursAt s pat (i + 1) then some (i + 1) else lastOccAux s pat i

/-- JS `s.lastIndexOf(pat)` for non-empty `pat`: character index of the last
    occurrence of `pat` in `s`, or `-1` when there is none. -/
def jsLastIndexOf (s pat : String) : Int :=
  match lastOccAux s.toList pat.toList s.toList.length with
  | some i => (i : Int)
  | none => -1

/-- `true` iff `pat` occurs somewhere in `s` (same search as `jsLastIndexOf`). -/
def containsSub (s pat : String) : Bool :=
  (lastOccAux s.toList pat.toList s.toList.length).isSome

/-- Clamp a JS (possibly negative) index into `[0, len]`,
    as `String.prototype.substring` does with its arguments. -/
def clampIdx (len : Nat) (i : Int) : Nat :=
  (min (max i 0) (len : Int)).toNat

/-- JS `s.substring(a, b)`: clamps both indices into range and swaps them
    when given in the wrong order. -/
def jsSubstring (s : String) (a b : Int) : String :=
  let a' := clampIdx s.length a
  let b' := clampIdx s.length b
  ((s.toList.drop (min a' b')).take (max a' b' - min a' b')).asString

/-- JS `s.substring(a)` (one-argument form): up to the end of the string. -/
def jsSubstringFrom (s : String) (a : Int) : String :=
  jsSubstring s a (s.length : Int)

/-! ### External collaborators (parameters of the model) -/

/-- The `utils` module functions the middleware calls.  They are not part of
    this repository's source, so they are opaque parameters of the model;
    claims that need properties of them (base64 round-trip, hash alphabet)
    take those properties as explicit hypotheses. -/
structure Utils where
  encodeBase64 : String → String
  decodeBase64 : String → String
  makeHash : String → String

/-- A session store (`mach.session.Store` instance): `save` yields the token
    to embed in the cookie, `load` recovers the session from a token.
    Promise rejection is modelled as `Except.error`. -/
structure Store (Sess : Type) where
  save : Sess → Except String String
  load : String → Except String (Option Sess)

/-- The configuration fields the `Session` constructor stores on `this`.
    `secret = ""` models an absent/empty (JS-falsy) secret;
    `expireAfter = 0` models no expiration. -/
structure Config where
  secret : String
  name : String
  path : String
  domain : Option String
  isSecure : Bool
  expireAfter : Nat
  isHttpOnly : Bool
  deriving DecidableEq

/-- Arguments of the `utils.setCookie` call made by the middleware.
    `value = none` models a JS-falsy cookie value, `expires = none` the
    falsy `0` produced by `expireAfter && new Date(...)` when
    `expireAfter` is `0`; otherwise `expires` is the absolute time in
    milliseconds. -/
structure CookieOpts where
  value : Option String
  path : String
  domain : Option String
  expires : Option Nat
  httpOnly : Bool
  secure : Bool
  deriving DecidableEq

/-- A response: an opaque body plus the list of `Set-Cookie` headers
    (`utils.setCookie` appends to `response.headers`). -/
structure Response (Body : Type) where
  body : Body
  setCookies : List (String × CookieOpts)
  deriving DecidableEq

/-- Observable events of one `apply` run, in chronological order:
    `store.load`/`store.save` calls, the `request.session = ...` assignment,
    `request.call(app)` with the value of `request.session` at that moment,
    `request.error.write` log lines, and `utils.setCookie` calls. -/
inductive Event (Sess : Type) where
  | storeLoad (token : String)
  | storeSave (sess : Sess)
  | attach (sess : Sess)
  | callHandler (sess : Option Sess)
  | logError (msg : String)
  | setCookie (name : String) (opts : CookieOpts)
  deriving DecidableEq

/-! ### The middleware source, embedded -/

def MAX_COOKIE_SIZE : Nat := 4096

variable {Sess Body : Type}

/-- `_makeHash(data, secret)` (session.js lines 146-148):
    `utils.makeHash(secret ? data + secret : data)`. -/
def _makeHash (u : Utils) (data secret : String) : String :=
  u.makeHash (if secret = "" then data else data ++ secret)

/-- `Session.prototype.encodeSession` (session.js lines 115-126).
    Returns the resolved/rejected cookie promise together with the store
    events it produced (`store.save` is always its first action). -/
def encodeSession (u : Utils) (cfg : Config) (store : Store Sess) (session : Sess) :
    Except String String × List (Event Sess) :=
  (match store.save session with
   | Except.error e => Except.error e
   | Except.ok data =>
     let cookie := u.encodeBase64 (data ++ "--" ++ _makeHash u data cfg.secret)
     if cookie.length > MAX_COOKIE_SIZE then
       Except.error "Cookie data size exceeds 4kb; content dropped"
     else
       Except.ok cookie,
   [Event.storeSave session])

/-- `Session.prototype.decodeCookie` (session.js lines 133-144).
    Splits the base64-decoded value at the last "--", checks the hash, and
    either loads from the store (recording the `store.load` call) or
    resolves to `null`. -/
def decodeCookie (u : Utils) (cfg : Config) (store : Store Sess) (cookie : String) :
    Except String (Option Sess) × List (Event Sess) :=
  let value := u.decodeBase64 cookie
  let index := jsLastIndexOf value "--"
  let data := jsSubstring value 0 index
  let hash := jsSubstringFrom value (index + 2)
  if hash = _makeHash u data cfg.secret then
    (store.load data, [Event.storeLoad data])
  else
    (Except.ok none, [])

/-- The expression `cookie && self.decodeCookie(cookie)` of line 78 wrapped in
    `RSVP.resolve`: an absent cookie (`none`) or the JS-falsy empty string
    resolve to a falsy session (`none`) without calling `decodeCookie`. -/
def cookieAndDecode (u : Utils) (cfg : Config) (store : Store Sess)
    (cookie? : Option String) : Except String (Option Sess) × List (Event Sess) :=
  match cookie? with
  | some c => if c = "" then (Except.ok none, []) else decodeCookie u cfg store c
  | none => (Except.ok none, [])

/-- Lines 82-103 of `apply`: after the handler resolved with `response` and
    left `request.session = postSession`, encode the session (when truthy),
    and decide whether to call `utils.setCookie`.  `cookie?` is the incoming
    cookie value, `now` the value of `Date.now()`.  All JS-falsy values of
    `request.session` and of the incoming cookie are modelled as `none`. -/
def finishResponse (u : Utils) (cfg : Config) (store : Store Sess)
    (cookie? : Option String) (now : Nat)
    (response : Response Body) (postSession : Option Sess) :
    Except String (Response Body) × List (Event Sess) :=
  let enc : Except String (Option String) × List (Event Sess) :=
    match postSession with
    | none => (Except.ok none, [])
    | some s =>
      match encodeSession u cfg store s with
      | (Except.error e, tr) => (Except.error e, tr)
      | (Except.ok c, tr) => (Except.ok (some c), tr)
  match enc with
  | (Except.error err, tr) =>
    (Except.ok response, tr ++ [Event.logError ("Error encoding session data: " ++ err)])
  | (Except.ok newCookie, tr) =>
    let expires : Option Nat :=
      if cfg.expireAfter = 0 then none else some (now + cfg.expireAfter * 1000)
    if newCookie = cookie? ∧ expires = none then
      (Except.ok response, tr)
    else
      let opts : CookieOpts :=
        { value := newCookie, path := cfg.path, domain := cfg.domain,
          expires := expires, httpOnly := cfg.isHttpOnly, secure := cfg.isSecure }
      (Except.ok { response with setCookies := response.setCookies ++ [(cfg.name, opts)] },
       tr ++ [Event.setCookie cfg.name opts])

/-- Lines 79-104 of `apply`: the fulfilled branch of the decode promise.
    Attaches `session || {}` (`emp` is the fresh empty session object),
    calls the handler with it, and on success finishes the response;
    a handler rejection propagates with no further action. -/
def withSession (u : Utils) (cfg : Config) (store : Store Sess) (emp : Sess)
    (app : Option Sess → Except String (Response Body × Option Sess))
    (cookie? : Option String) (now : Nat) (sessOpt : Option Sess) :
    Except String (Response Body) × List (Event Sess) :=
  let sess := sessOpt.getD emp
  match app (some sess) with
  | Except.error e =>
    (Except.error e, [Event.attach sess, Event.callHandler (some sess)])
  | Except.ok (response, postSession) =>
    ((finishResponse u cfg store cookie? now response postSession).1,
     [Event.attach sess, Event.callHandler (some sess)] ++
       (finishResponse u cfg store cookie? now response postSession).2)

/-- `Session.prototype.apply` (session.js lines 67-109).
    `reqSession` is `request.session` on entry (`none` when JS-falsy),
    `cookie?` is `request.cookies[this._name]` (`none` when absent), `emp`
    the fresh `{}` object, `app` the downstream app as seen through
    `request.call` (it receives `request.session` and returns the response
    together with the value it leaves in `request.session`). -/
def applyM (u : Utils) (cfg : Config) (store : Store Sess) (emp : Sess)
    (app : Option Sess → Except String (Response Body × Option Sess))
    (reqSession : Option Sess) (cookie? : Option String) (now : Nat) :
    Except String (Response Body) × List (Event Sess) :=
  match reqSession with
  | some s =>
    -- line 72-73: don't overwrite the existing session
    (match app (some s) with
     | Except.error e => Except.error e
     | Except.ok (r, _) => Except.ok r,
     [Event.callHandler (some s)])
  | none =>
    match cookieAndDecode u cfg store cookie? with
    | (Except.error err, dtr) =>
      -- lines 105-108: rejected decode promise
      (match app none with
       | Except.error e => Except.error e
       | Except.ok (r, _) => Except.ok r,
       dtr ++ [Event.logError ("Error decoding session data: " ++ err),
               Event.callHandler none])
    | (Except.ok sessOpt, dtr) =>
      ((withSession u cfg store emp app cookie? now sessOpt).1,
       dtr ++ (withSession u cfg store emp app cookie? now sessOpt).2)

/-- The `submodules` table (session.js lines 150-154): the store
    implementations exposed as lazily required properties of the module. -/
def submodules : List (String × String) :=
  [("CookieStore", "./session/cookie-store"),
   ("MemoryStore", "./session/memory-store"),
   ("RedisStore", "./session/redis-store")]

/-! ### Concrete fixtures used by witnesses and counterexamples -/

/-- Transparent base64 and a constant dash-free hash, for concrete runs. -/
def utilsZZ : Utils := ⟨fun s => s, fun s => s, fun _ => "zz"⟩

/-- Base64-decodes every cookie to the delimiter-free value "zq"; the hash of
    anything is "q" (which is "zq" minus its first character). -/
def utilsQ : Utils := ⟨fun s => s, fun _ => "zq", fun _ => "q"⟩

/-- The default configuration the `Session` constructor produces when given
    no options (and no secret). -/
def cfgDefault : Config := ⟨"", "_session", "/", none, false, 0, true⟩

/-- Same but with `expireAfter` set to 10 seconds. -/
def cfgExp : Config := ⟨"", "_session", "/", none, false, 10, true⟩

/-- A store whose token is "x--y" (it contains the delimiter). -/
def storeXY : Store Nat := ⟨fun _ => Except.ok "x--y", fun t => Except.ok (some t.length)⟩

/-- A store whose `load` always rejects. -/
def storeFailLoad : Store Nat := ⟨fun _ => Except.ok "d", fun _ => Except.error "boom"⟩

/-- A store whose `save` always rejects. -/
def storeFailSave : Store Nat := ⟨fun _ => Except.error "savefail", fun _ => Except.ok none⟩

/-- A handler that returns response body 7 and leaves the session in place. -/
def appOk : Option Nat → Except String (Response Nat × Option Nat) :=
  fun s => Except.ok (⟨7, []⟩, s)

/-- A handler that always rejects. -/
def appFail : Option Nat → Except String (Response Nat × Option Nat) :=
  fun _ => Except.error "apperr"

end Mach

deriving instance DecidableEq for Except

namespace Mach

variable {Sess Body : Type}

/-! ### Supporting lemmas about the JS string primitives -/

theorem occursAt_iff {s pat : List Char} {i : Nat} :
    occursAt s pat i = true ↔ (s.drop i).take pat.length = pat := by
  simp [occursAt]

theorem lastOccAux_eq_some {s pat : List Char} {i : Nat} :
    ∀ {n : Nat}, i ≤ n → occursAt s pat i = true →
      (∀ j, i < j → j ≤ n → occursAt s pat j = false) →
      lastOccAux s pat n = some i := by
  intro n
  induction n with
  | zero =>
    intro hle hocc _
    have h0 : i = 0 := Nat.le_zero.mp hle
    subst h0
    simp [lastOccAux, hocc]
  | succ n ih =>
    intro hle hocc hmax
    by_cases hi : i = n + 1
    · subst hi
      simp [lastOccAux, hocc]
    · have hin : i ≤ n := by omega
      have hfalse : occursAt s pat (n + 1) = false := hmax (n + 1) (by omega) (le_refl _)
      simp only [lastOccAux, hfalse, Bool.false_eq_true, if_false]
      exact ih hin hocc (fun j h1 h2 => hmax j h1 (by omega))

theorem lastOccAux_eq_none {s pat : List Char} :
    ∀ {n : Nat}, (∀ j, j ≤ n → occursAt s pat j = false) →
      lastOccAux s pat n = none := by
  intro n
  induction n with
  | zero =>
    intro h
    simp [lastOccAux, h 0 (le_refl 0)]
  | succ n ih =>
    intro h
    simp only [lastOccAux, h (n + 1) (le_refl _), Bool.false_eq_true, if_false]
    exact ih (fun j hj => h j (by omega))

theorem drop_append_len {α : Type} (l t : List α) (k : Nat) :
    (l ++ t).drop (l.length + k) = t.drop k := by
  rw [← List.drop_drop, List.drop_left]

theorem clampIdx_natCast (len m : Nat) : clampIdx len (m : Int) = min m len := by
  unfold clampIdx
  omega

theorem clampIdx_neg_one (len : Nat) : clampIdx len (-1) = 0 := by
  unfold clampIdx
  omega

/-- The decoded value of a well-formed token splits at the "--" the encoder
    inserted, provided the appended hash contains no dash character. -/
theorem lastIndexOf_append_delim (d h : String) (hdash : ('-' : Char) ∉ h.toList) :
    jsLastIndexOf (d ++ "--" ++ h) "--" = (d.length : Int) := by
  have htl : (d ++ "--" ++ h).toList = d.toList ++ (['-', '-'] ++ h.toList) := by
    rw [show (d ++ "--" ++ h).toList = (d ++ "--").toList ++ h.toList from
          String.data_append _ _,
        show (d ++ "--").toList = d.toList ++ ['-', '-'] from String.data_append _ _,
        List.append_assoc]
  have hocc : occursAt (d ++ "--" ++ h).toList ("--").toList d.toList.length = true := by
    rw [occursAt_iff, htl, List.drop_left]
    rfl
  have hmax : ∀ j, d.toList.length < j → j ≤ (d ++ "--" ++ h).toList.length →
      occursAt (d ++ "--" ++ h).toList ("--").toList j = false := by
    intro j hj _
    by_contra hne
    have ht : occursAt (d ++ "--" ++ h).toList ("--").toList j = true := by
      cases hcase : occursAt (d ++ "--" ++ h).toList ("--").toList j
      · exact absurd hcase hne
      · rfl
    have hocc' : (((d ++ "--" ++ h).toList.drop j).take 2) = ['-', '-'] :=
      occursAt_iff.mp ht
    have hmem : ('-' : Char) ∈ h.toList := by
      rcases Nat.lt_or_ge j (d.toList.length + 2) with hj2 | hj2
      · -- j = d.length + 1 : the window starts at the second delimiter dash
        have hj1 : j = d.toList.length + 1 := by omega
        rw [htl, hj1, drop_append_len] at hocc'
        rw [show (['-', '-'] ++ h.toList).drop 1 = '-' :: h.toList from rfl,
            show (2 : Nat) = 1 + 1 from rfl, List.take_succ_cons] at hocc'
        have h1 : h.toList.take 1 = ['-'] := by
          injection hocc'
        exact List.take_subset 1 h.toList (by rw [h1]; exact List.mem_singleton.mpr rfl)
      · -- j ≥ d.length + 2 : the window lies inside the hash
        obtain ⟨k, hk⟩ : ∃ k, j = d.toList.length + (2 + k) := ⟨j - d.toList.length - 2, by omega⟩
        rw [htl, hk, drop_append_len] at hocc'
        have hdrop : ((['-', '-'] : List Char) ++ h.toList).drop (2 + k) = h.toList.drop k :=
          drop_append_len ['-', '-'] h.toList k
        rw [hdrop] at hocc'
        have hmem2 : ('-' : Char) ∈ (h.toList.drop k).take 2 := by
          rw [hocc']
          exact List.mem_cons_self _ _
        exact List.drop_subset k h.toList (List.take_subset 2 _ hmem2)
    exact hdash hmem
  unfold jsLastIndexOf
  rw [lastOccAux_eq_some (Nat.le_of_lt_succ (by
        rw [htl]
        simp only [List.length_append, List.length_cons, List.length_singleton]
        omega))
      hocc hmax]
  rfl

theorem toList_append3 (d h : String) :
    (d ++ "--" ++ h).toList = d.toList ++ (['-', '-'] ++ h.toList) := by
  rw [show (d ++ "--" ++ h).toList = (d ++ "--").toList ++ h.toList from
        String.data_append _ _,
      show (d ++ "--").toList = d.toList ++ ['-', '-'] from String.data_append _ _,
      List.append_assoc]

theorem length_append3 (d h : String) :
    (d ++ "--" ++ h).length = d.length + 2 + h.length := by
  rw [String.length_append, String.length_append,
      show ("--" : String).length = 2 from rfl]

theorem jsSubstring_zero_len (d h : String) :
    jsSubstring (d ++ "--" ++ h) 0 (d.length : Int) = d := by
  have hlen : (d ++ "--" ++ h).length = d.length + 2 + h.length := length_append3 d h
  have hz : clampIdx (d ++ "--" ++ h).length 0 = 0 := by
    unfold clampIdx
    omega
  have hd : clampIdx (d ++ "--" ++ h).length (d.length : Int) = d.length := by
    unfold clampIdx
    omega
  simp only [jsSubstring, hz, hd, Nat.zero_min, Nat.zero_max, List.drop_zero, Nat.sub_zero]
  rw [toList_append3, List.take_left' (show d.toList.length = d.length from rfl)]
  rfl

theorem jsSubstringFrom_len_add_two (d h : String) :
    jsSubstringFrom (d ++ "--" ++ h) ((d.length : Int) + 2) = h := by
  have hlen : (d ++ "--" ++ h).length = d.length + 2 + h.length := length_append3 d h
  have ha : clampIdx (d ++ "--" ++ h).length ((d.length : Int) + 2) = d.length + 2 := by
    unfold clampIdx
    omega
  have hb : clampIdx (d ++ "--" ++ h).length ((d ++ "--" ++ h).length : Int) =
      (d ++ "--" ++ h).length := by
    unfold clampIdx
    omega
  simp only [jsSubstringFrom, jsSubstring, ha, hb]
  rw [min_eq_left (by omega), max_eq_right (by omega)]
  rw [toList_append3,
      show d.toList ++ (['-', '-'] ++ h.toList) = (d.toList ++ ['-', '-']) ++ h.toList from
        (List.append_assoc _ _ _).symm,
      List.drop_left' (by rw [List.length_append]; rfl)]
  rw [hlen, show d.length + 2 + h.length - (d.length + 2) = h.length from by omega,
      show h.length = h.toList.length from rfl, List.take_length]
  rfl

theorem jsSubstring_zero_neg_one (s : String) : jsSubstring s 0 (-1) = "" := by
  have hz : clampIdx s.length 0 = 0 := by
    unfold clampIdx
    omega
  have hneg : clampIdx s.length (-1) = 0 := by
    unfold clampIdx
    omega
  simp only [jsSubstring, hz, hneg]
  rfl

theorem jsSubstringFrom_one (s : String) :
    jsSubstringFrom s 1 = (s.toList.drop 1).asString := by
  have ha : clampIdx s.length 1 = min 1 s.length := by
    unfold clampIdx
    omega
  have hb : clampIdx s.length (s.length : Int) = s.length := by
    unfold clampIdx
    omega
  simp only [jsSubstringFrom, jsSubstring, ha, hb]
  rw [min_eq_left (min_le_right 1 s.length), max_eq_right (min_le_right 1 s.length),
      show s.length = s.toList.length from rfl]
  cases h : s.toList with
  | nil => rfl
  | cons a t =>
    rw [List.length_cons, min_eq_left (Nat.le_add_left 1 t.length),
        show (a :: t).drop 1 = t from rfl,
        show t.length + 1 - 1 = t.length from rfl, List.take_length]

/-- A token built by the encoder decodes back to the exact store token and is
    handed to `Store.load`, provided base64 round-trips on it and the hash
    contains no dash character. -/
theorem decodeCookie_wellFormed (u : Utils) (cfg : Config) (store : Store Sess)
    (cookie d : String)
    (hB64 : u.decodeBase64 cookie = d ++ "--" ++ _makeHash u d cfg.secret)
    (hdash : ('-' : Char) ∉ (_makeHash u d cfg.secret).toList) :
    decodeCookie u cfg store cookie = (store.load d, [Event.storeLoad d]) := by
  simp only [decodeCookie]
  rw [hB64, lastIndexOf_append_delim _ _ hdash, jsSubstring_zero_len,
      jsSubstringFrom_len_add_two, if_pos rfl]

/-- On a successful `store.save`, the encoded cookie is determined by the
    saved token, the hash and the size check. -/
theorem encodeSession_fst (u : Utils) (cfg : Config) (store : Store Sess) (session : Sess)
    (d : String) (hsave : store.save session = Except.ok d) :
    (encodeSession u cfg store session).1 =
      (if (u.encodeBase64 (d ++ "--" ++ _makeHash u d cfg.secret)).length > MAX_COOKIE_SIZE
       then Except.error "Cookie data size exceeds 4kb; content dropped"
       else Except.ok (u.encodeBase64 (d ++ "--" ++ _makeHash u d cfg.secret))) := by
  simp only [encodeSession, hsave]

/-- The trace of the fulfilled-decode branch always starts with the
    `request.session` assignment followed by the handler call, both carrying
    `session || {}`. -/
theorem withSession_trace_take2 (u : Utils) (cfg : Config) (store : Store Sess) (emp : Sess)
    (app : Option Sess → Except String (Response Body × Option Sess))
    (cookie? : Option String) (now : Nat) (sessOpt : Option Sess) :
    ((withSession u cfg store emp app cookie? now sessOpt).2).take 2 =
      [Event.attach (sessOpt.getD emp), Event.callHandler (some (sessOpt.getD emp))] := by
  simp only [withSession]
  cases happ : app (some (sessOpt.getD emp)) with
  | error e => rfl
  | ok p =>
    obtain ⟨r, post⟩ := p
    rfl

end Mach

namespace Mach

variable {Sess Body : Type}

/-! ### The claims -/

/-- C2: for every store token `d` and configured secret, `encodeSession`
    produces `base64(d ++ "--" ++ sig)` where `sig` is the hash of
    `d ++ secret` when a secret is set and of `d` alone when it is
    empty/unset, and it fails with the payload-too-large error exactly when
    the encoded token exceeds `MAX_COOKIE_SIZE` (4096) bytes. -/
theorem c2_encode_shape_and_size (u : Utils) (cfg : Config) (store : Store Sess)
    (session : Sess) (d : String)
    (hsave : store.save session = Except.ok d) :
    ((encodeSession u cfg store session).1 =
      (if (u.encodeBase64 (d ++ "--" ++
            (if cfg.secret = "" then u.makeHash d else u.makeHash (d ++ cfg.secret)))).length >
          MAX_COOKIE_SIZE
       then Except.error "Cookie data size exceeds 4kb; content dropped"
       else Except.ok (u.encodeBase64 (d ++ "--" ++
            (if cfg.secret = "" then u.makeHash d else u.makeHash (d ++ cfg.secret)))))) ∧
    ((encodeSession u cfg store session).1 =
        Except.error "Cookie data size exceeds 4kb; content dropped" ↔
      (u.encodeBase64 (d ++ "--" ++
        (if cfg.secret = "" then u.makeHash d else u.makeHash (d ++ cfg.secret)))).length >
        MAX_COOKIE_SIZE) := by
  have hshape : (encodeSession u cfg store session).1 =
      (if (u.encodeBase64 (d ++ "--" ++
            (if cfg.secret = "" then u.makeHash d else u.makeHash (d ++ cfg.secret)))).length >
          MAX_COOKIE_SIZE
       then Except.error "Cookie data size exceeds 4kb; content dropped"
       else Except.ok (u.encodeBase64 (d ++ "--" ++
            (if cfg.secret = "" then u.makeHash d else u.makeHash (d ++ cfg.secret))))) := by
    rw [encodeSession_fst u cfg store session d hsave]
    simp only [_makeHash, apply_ite u.makeHash]
  refine ⟨hshape, ?_⟩
  rw [hshape]
  by_cases hbig : (u.encodeBase64 (d ++ "--" ++
      (if cfg.secret = "" then u.makeHash d else u.makeHash (d ++ cfg.secret)))).length >
      MAX_COOKIE_SIZE
  · simp [hbig]
  · simp [hbig]

/-- C2 witness: a concrete store token "x--y" with no secret. -/
theorem c2_witness :
    storeXY.save 5 = Except.ok "x--y" ∧
    (((encodeSession utilsZZ cfgDefault storeXY 5).1 =
      (if (utilsZZ.encodeBase64 ("x--y" ++ "--" ++
            (if cfgDefault.secret = "" then utilsZZ.makeHash "x--y"
             else utilsZZ.makeHash ("x--y" ++ cfgDefault.secret)))).length >
          MAX_COOKIE_SIZE
       then Except.error "Cookie data size exceeds 4kb; content dropped"
       else Except.ok (utilsZZ.encodeBase64 ("x--y" ++ "--" ++
            (if cfgDefault.secret = "" then utilsZZ.makeHash "x--y"
             else utilsZZ.makeHash ("x--y" ++ cfgDefault.secret)))))) ∧
    ((encodeSession utilsZZ cfgDefault storeXY 5).1 =
        Except.error "Cookie data size exceeds 4kb; content dropped" ↔
      (utilsZZ.encodeBase64 ("x--y" ++ "--" ++
        (if cfgDefault.secret = "" then utilsZZ.makeHash "x--y"
         else utilsZZ.makeHash ("x--y" ++ cfgDefault.secret)))).length >
        MAX_COOKIE_SIZE)) :=
  ⟨rfl, c2_encode_shape_and_size utilsZZ cfgDefault storeXY 5 "x--y" rfl⟩

/-- C5: decode splits the base64-decoded token on the last occurrence of
    "--", so for every store token `d` — including tokens that themselves
    contain "--" — and every secret, decoding the token produced by
    `encodeSession` recovers exactly `d` and passes it to `Store.load`.
    The base64 codec and the hash live in the external `utils` module, so
    the hypotheses state the two facts the spec assumes of them: base64
    round-trips on this token, and the hash string (a hex digest) contains
    no dash character. -/
theorem c5_decode_splits_last_delimiter (u : Utils) (cfg : Config) (store : Store Sess)
    (session : Sess) (d : String)
    (hsave : store.save session = Except.ok d)
    (hsize : (u.encodeBase64 (d ++ "--" ++ _makeHash u d cfg.secret)).length ≤ MAX_COOKIE_SIZE)
    (hB64 : u.decodeBase64 (u.encodeBase64 (d ++ "--" ++ _makeHash u d cfg.secret)) =
      d ++ "--" ++ _makeHash u d cfg.secret)
    (hdash : ('-' : Char) ∉ (_makeHash u d cfg.secret).toList) :
    (encodeSession u cfg store session).1 =
      Except.ok (u.encodeBase64 (d ++ "--" ++ _makeHash u d cfg.secret)) ∧
    decodeCookie u cfg store (u.encodeBase64 (d ++ "--" ++ _makeHash u d cfg.secret)) =
      (store.load d, [Event.storeLoad d]) := by
  constructor
  · rw [encodeSession_fst u cfg store session d hsave, if_neg (Nat.not_lt.mpr hsize)]
  · exact decodeCookie_wellFormed u cfg store _ d hB64 hdash

/-- C5 witness: the store token "x--y" contains the delimiter and still
    round-trips. -/
theorem c5_witness :
    storeXY.save 5 = Except.ok "x--y" ∧
    (utilsZZ.encodeBase64 ("x--y" ++ "--" ++ _makeHash utilsZZ "x--y" cfgDefault.secret)).length ≤
      MAX_COOKIE_SIZE ∧
    utilsZZ.decodeBase64 (utilsZZ.encodeBase64
        ("x--y" ++ "--" ++ _makeHash utilsZZ "x--y" cfgDefault.secret)) =
      "x--y" ++ "--" ++ _makeHash utilsZZ "x--y" cfgDefault.secret ∧
    ('-' : Char) ∉ (_makeHash utilsZZ "x--y" cfgDefault.secret).toList ∧
    ((encodeSession utilsZZ cfgDefault storeXY 5).1 =
      Except.ok (utilsZZ.encodeBase64
        ("x--y" ++ "--" ++ _makeHash utilsZZ "x--y" cfgDefault.secret)) ∧
    decodeCookie utilsZZ cfgDefault storeXY (utilsZZ.encodeBase64
        ("x--y" ++ "--" ++ _makeHash utilsZZ "x--y" cfgDefault.secret)) =
      (storeXY.load "x--y", [Event.storeLoad "x--y"])) :=
  ⟨rfl, by decide, rfl, by decide,
   c5_decode_splits_last_delimiter utilsZZ cfgDefault storeXY 5 "x--y" rfl
     (by decide) rfl (by decide)⟩

/-- C7: a request that already carries a session passes straight through to
    the handler with that session; the trace shows the handler call with the
    existing session as its only event, so nothing is decoded, attached,
    saved or set on that path and the existing session is never replaced. -/
theorem c7_reentrancy_passthrough (u : Utils) (cfg : Config) (store : Store Sess)
    (emp : Sess) (app : Option Sess → Except String (Response Body × Option Sess))
    (s : Sess) (cookie? : Option String) (now : Nat) :
    applyM u cfg store emp app (some s) cookie? now =
      (match app (some s) with
       | Except.error e => Except.error e
       | Except.ok (r, _) => Except.ok r,
       [Event.callHandler (some s)]) := rfl

/-- C9 counterexample: the module does not expose a store named
    "RemoteStore"; the claimed name list does not match the source's
    `submodules` table. -/
theorem c9_counterexample :
    submodules.map Prod.fst ≠ ["CookieStore", "MemoryStore", "RemoteStore"] ∧
    "RemoteStore" ∉ submodules.map Prod.fst := by decide

/-- C9 (amended): the module exposes exactly three named, independently
    loadable store implementations, under the names CookieStore, MemoryStore
    and RedisStore. -/
theorem c9_exposed_store_names :
    submodules.map Prod.fst = ["CookieStore", "MemoryStore", "RedisStore"] ∧
    submodules.length = 3 := by decide

/-- C10: when the base64-decoded value contains no "--", `lastIndexOf`
    returns -1, so the payload is `substring(0, -1) = ""` and the candidate
    signature is `substring(1)` — the decoded value minus its first
    character; the cookie decodes to `Store.load ""` exactly when that
    string equals the hash of the empty payload, and to `null` otherwise,
    with no error raised by the split-and-compare logic itself. -/
theorem c10_delimiter_free_cookie (u : Utils) (cfg : Config) (store : Store Sess)
    (c : String)
    (hnone : containsSub (u.decodeBase64 c) "--" = false) :
    jsLastIndexOf (u.decodeBase64 c) "--" = -1 ∧
    decodeCookie u cfg store c =
      (if ((u.decodeBase64 c).toList.drop 1).asString = _makeHash u "" cfg.secret
       then (store.load "", [Event.storeLoad ""])
       else (Except.ok none, [])) := by
  have hlast : jsLastIndexOf (u.decodeBase64 c) "--" = -1 := by
    unfold jsLastIndexOf
    unfold containsSub at hnone
    cases hcase : lastOccAux (u.decodeBase64 c).toList ("--").toList
        (u.decodeBase64 c).toList.length with
    | none => rfl
    | some i =>
      rw [hcase] at hnone
      simp at hnone
  refine ⟨hlast, ?_⟩
  simp only [decodeCookie]
  rw [hlast, show ((-1 : Int) + 2) = 1 from by decide, jsSubstring_zero_neg_one,
      jsSubstringFrom_one]

/-- C10 witness: a cookie decoding to "zq" (no delimiter); the hash of ""
    is "q", which equals "zq" minus its first character, so the store is
    asked for the empty token. -/
theorem c10_witness :
    containsSub (utilsQ.decodeBase64 "anything") "--" = false ∧
    (jsLastIndexOf (utilsQ.decodeBase64 "anything") "--" = -1 ∧
    decodeCookie utilsQ cfgDefault storeXY "anything" =
      (if ((utilsQ.decodeBase64 "anything").toList.drop 1).asString =
          _makeHash utilsQ "" cfgDefault.secret
       then (storeXY.load "", [Event.storeLoad ""])
       else (Except.ok none, []))) :=
  ⟨by decide, c10_delimiter_free_cookie utilsQ cfgDefault storeXY "anything" (by decide)⟩

end Mach

namespace Mach

variable {Sess Body : Type}

/-- C1: a cookie whose recovered signature differs from the signature
    recomputed over the recovered payload makes `decodeCookie` resolve to
    `null` (no rejection, no store call), and `apply` then attaches the
    fresh empty session and invokes the handler with it: the trace of the
    run starts with the attach of `emp` followed by the handler call. -/
theorem c1_sig_mismatch_attaches_empty (u : Utils) (cfg : Config) (store : Store Sess)
    (emp : Sess) (app : Option Sess → Except String (Response Body × Option Sess))
    (c : String) (now : Nat)
    (hc : c ≠ "")
    (hne : jsSubstringFrom (u.decodeBase64 c) (jsLastIndexOf (u.decodeBase64 c) "--" + 2) ≠
      _makeHash u (jsSubstring (u.decodeBase64 c) 0 (jsLastIndexOf (u.decodeBase64 c) "--"))
        cfg.secret) :
    decodeCookie u cfg store c = (Except.ok none, []) ∧
    ((applyM u cfg store emp app none (some c) now).2).take 2 =
      [Event.attach emp, Event.callHandler (some emp)] := by
  have hdec : decodeCookie u cfg store c = (Except.ok none, []) := by
    simp only [decodeCookie]
    rw [if_neg hne]
  have hcd : cookieAndDecode u cfg store (some c) =
      (Except.ok none, ([] : List (Event Sess))) := by
    simp only [cookieAndDecode, if_neg hc, hdec]
  refine ⟨hdec, ?_⟩
  simp only [applyM, hcd, List.nil_append]
  simpa using withSession_trace_take2 u cfg store emp app (some c) now none

/-- C1 witness: the cookie "AAAA" decodes (with transparent base64) to a
    value whose recovered signature "AAA" differs from the hash "zz". -/
theorem c1_witness :
    ("AAAA" : String) ≠ "" ∧
    jsSubstringFrom (utilsZZ.decodeBase64 "AAAA")
        (jsLastIndexOf (utilsZZ.decodeBase64 "AAAA") "--" + 2) ≠
      _makeHash utilsZZ
        (jsSubstring (utilsZZ.decodeBase64 "AAAA") 0
          (jsLastIndexOf (utilsZZ.decodeBase64 "AAAA") "--")) cfgDefault.secret ∧
    (decodeCookie utilsZZ cfgDefault storeXY "AAAA" = (Except.ok none, []) ∧
    ((applyM utilsZZ cfgDefault storeXY 0 appOk none (some "AAAA") 0).2).take 2 =
      [Event.attach 0, Event.callHandler (some 0)]) :=
  ⟨by decide, by decide,
   c1_sig_mismatch_attaches_empty utilsZZ cfgDefault storeXY 0 appOk "AAAA" 0
     (by decide) (by decide)⟩

/-- C3 counterexample: claim C3 counts a "signature error" among the decode
    failures that are logged and get no session attached; but on the cookie
    "AAAA" (signature mismatch with transparent base64) the run's trace
    shows `session = {}` IS force-attached and NO diagnostic is logged —
    decode resolves to `null` and takes the success path. -/
theorem c3_counterexample :
    (applyM utilsZZ cfgDefault storeXY 0 appOk none (some "AAAA") 0).2 =
      [Event.attach 0, Event.callHandler (some 0), Event.storeSave 0,
       Event.setCookie "_session"
         ⟨some "x--y--zz", "/", none, none, true, false⟩] ∧
    Event.attach 0 ∈ (applyM utilsZZ cfgDefault storeXY 0 appOk none (some "AAAA") 0).2 ∧
    ((applyM utilsZZ cfgDefault storeXY 0 appOk none (some "AAAA") 0).2.all
      (fun e => match e with
        | Event.logError _ => false
        | _ => true)) = true := by decide

/-- C3 (amended): when the decode promise actually rejects — which happens
    exactly on a `Store.load` failure; malformed cookies and signature
    mismatches instead resolve to `null` and take the success path — the
    middleware recovers locally: it logs the diagnostic and invokes the
    handler directly, with no session attached (no attach event), returning
    the handler's outcome. -/
theorem c3_decode_rejection_recovers (u : Utils) (cfg : Config) (store : Store Sess)
    (emp : Sess) (app : Option Sess → Except String (Response Body × Option Sess))
    (c : String) (now : Nat) (err : String) (dtr : List (Event Sess))
    (hc : c ≠ "")
    (hdec : decodeCookie u cfg store c = (Except.error err, dtr)) :
    applyM u cfg store emp app none (some c) now =
      (match app none with
       | Except.error e => Except.error e
       | Except.ok (r, _) => Except.ok r,
       dtr ++ [Event.logError ("Error decoding session data: " ++ err),
               Event.callHandler none]) := by
  have hcd : cookieAndDecode u cfg store (some c) = (Except.error err, dtr) := by
    simp only [cookieAndDecode, if_neg hc, hdec]
  simp only [applyM, hcd]

/-- C3 witness: a store whose `load` rejects, reached through a cookie whose
    signature matches. -/
theorem c3_witness :
    ("d--zz" : String) ≠ "" ∧
    decodeCookie utilsZZ cfgDefault storeFailLoad "d--zz" =
      (Except.error "boom", [Event.storeLoad "d"]) ∧
    applyM utilsZZ cfgDefault storeFailLoad 0 appOk none (some "d--zz") 0 =
      (match appOk none with
       | Except.error e => Except.error e
       | Except.ok (r, _) => Except.ok r,
       [Event.storeLoad "d"] ++
         [Event.logError ("Error decoding session data: " ++ "boom"),
          Event.callHandler none]) :=
  ⟨by decide, by decide,
   c3_decode_rejection_recovers utilsZZ cfgDefault storeFailLoad 0 appOk "d--zz" 0
     "boom" [Event.storeLoad "d"] (by decide) (by decide)⟩

/-- C4: when the handler succeeded but `encodeSession` rejects (store save
    failure or the payload-too-large throw), the middleware logs the
    diagnostic and returns the handler's response object unchanged; the
    trace contains no `setCookie` event. -/
theorem c4_encode_failure_keeps_response (u : Utils) (cfg : Config) (store : Store Sess)
    (emp : Sess) (app : Option Sess → Except String (Response Body × Option Sess))
    (cookie? : Option String) (now : Nat)
    (sessOpt : Option Sess) (dtr : List (Event Sess)) (resp : Response Body)
    (s' : Sess) (err : String)
    (hdec : cookieAndDecode u cfg store cookie? = (Except.ok sessOpt, dtr))
    (happ : app (some (sessOpt.getD emp)) = Except.ok (resp, some s'))
    (henc : (encodeSession u cfg store s').1 = Except.error err) :
    applyM u cfg store emp app none cookie? now =
      (Except.ok resp,
       dtr ++ [Event.attach (sessOpt.getD emp),
               Event.callHandler (some (sessOpt.getD emp)),
               Event.storeSave s',
               Event.logError ("Error encoding session data: " ++ err)]) := by
  have hpair : encodeSession u cfg store s' = (Except.error err, [Event.storeSave s']) :=
    Prod.ext_iff.mpr ⟨henc, rfl⟩
  simp only [applyM, hdec, withSession, happ, finishResponse, hpair]
  simp [List.append_assoc]

/-- C4 witness: a store whose `save` rejects. -/
theorem c4_witness :
    cookieAndDecode utilsZZ cfgDefault storeFailSave (none : Option String) =
      (Except.ok none, []) ∧
    appOk (some ((none : Option Nat).getD 0)) = Except.ok (⟨7, []⟩, some 0) ∧
    (encodeSession utilsZZ cfgDefault storeFailSave 0).1 = Except.error "savefail" ∧
    applyM utilsZZ cfgDefault storeFailSave 0 appOk none none 0 =
      (Except.ok ⟨7, []⟩,
       [] ++ [Event.attach ((none : Option Nat).getD 0),
              Event.callHandler (some ((none : Option Nat).getD 0)),
              Event.storeSave 0,
              Event.logError ("Error encoding session data: " ++ "savefail")]) :=
  ⟨by decide, by decide, by decide,
   c4_encode_failure_keeps_response utilsZZ cfgDefault storeFailSave 0 appOk none 0
     none [] ⟨7, []⟩ 0 "savefail" (by decide) (by decide) (by decide)⟩

/-- C6: if the downstream handler rejects, `apply`'s promise rejects with the
    very same error, and the trace ends at the handler call: no
    `Store.save`, no `encodeSession` (whose only entry event would be a
    `storeSave`), and no `setCookie` on any response. -/
theorem c6_handler_failure_propagates (u : Utils) (cfg : Config) (store : Store Sess)
    (emp : Sess) (app : Option Sess → Except String (Response Body × Option Sess))
    (cookie? : Option String) (now : Nat)
    (sessOpt : Option Sess) (dtr : List (Event Sess)) (err : String)
    (hdec : cookieAndDecode u cfg store cookie? = (Except.ok sessOpt, dtr))
    (happ : app (some (sessOpt.getD emp)) = Except.error err) :
    applyM u cfg store emp app none cookie? now =
      (Except.error err,
       dtr ++ [Event.attach (sessOpt.getD emp),
               Event.callHandler (some (sessOpt.getD emp))]) := by
  simp only [applyM, hdec, withSession, happ]

/-- C6 witness: a rejecting handler on a cookieless request. -/
theorem c6_witness :
    cookieAndDecode utilsZZ cfgDefault storeXY (none : Option String) =
      (Except.ok none, []) ∧
    appFail (some ((none : Option Nat).getD 0)) = Except.error "apperr" ∧
    applyM utilsZZ cfgDefault storeXY 0 appFail none none 0 =
      (Except.error "apperr",
       [] ++ [Event.attach ((none : Option Nat).getD 0),
              Event.callHandler (some ((none : Option Nat).getD 0))]) :=
  ⟨by decide, by decide,
   c6_handler_failure_propagates utilsZZ cfgDefault storeXY 0 appFail none 0
     none [] "apperr" (by decide) (by decide)⟩

/-- C8: with the newly encoded cookie `tok` in hand, the middleware skips
    `Set-Cookie` exactly when `tok` is byte-identical to the incoming cookie
    and `expireAfter = 0`; otherwise it sets the cookie, with expiry
    `now + expireAfter * 1000` milliseconds whenever `expireAfter > 0` —
    even when the value is unchanged. -/
theorem c8_skip_or_set_cookie (u : Utils) (cfg : Config) (store : Store Sess)
    (emp : Sess) (app : Option Sess → Except String (Response Body × Option Sess))
    (cookie? : Option String) (now : Nat)
    (sessOpt : Option Sess) (dtr : List (Event Sess)) (resp : Response Body)
    (s' : Sess) (tok : String)
    (hdec : cookieAndDecode u cfg store cookie? = (Except.ok sessOpt, dtr))
    (happ : app (some (sessOpt.getD emp)) = Except.ok (resp, some s'))
    (henc : (encodeSession u cfg store s').1 = Except.ok tok) :
    applyM u cfg store emp app none cookie? now =
      (if some tok = cookie? ∧ cfg.expireAfter = 0 then
        (Except.ok resp,
         dtr ++ [Event.attach (sessOpt.getD emp),
                 Event.callHandler (some (sessOpt.getD emp)),
                 Event.storeSave s'])
       else
        (Except.ok { resp with setCookies := resp.setCookies ++
            [(cfg.name,
              ⟨some tok, cfg.path, cfg.domain,
               (if cfg.expireAfter = 0 then none
                else some (now + cfg.expireAfter * 1000)),
               cfg.isHttpOnly, cfg.isSecure⟩)] },
         dtr ++ [Event.attach (sessOpt.getD emp),
                 Event.callHandler (some (sessOpt.getD emp)),
                 Event.storeSave s',
                 Event.setCookie cfg.name
                   ⟨some tok, cfg.path, cfg.domain,
                    (if cfg.expireAfter = 0 then none
                     else some (now + cfg.expireAfter * 1000)),
                    cfg.isHttpOnly, cfg.isSecure⟩])) := by
  have hpair : encodeSession u cfg store s' = (Except.ok tok, [Event.storeSave s']) :=
    Prod.ext_iff.mpr ⟨henc, rfl⟩
  simp only [applyM, hdec, withSession, happ, finishResponse, hpair]
  by_cases h0 : cfg.expireAfter = 0
  · by_cases heq : some tok = cookie?
    · simp [h0, heq, List.append_assoc]
    · simp [h0, heq, List.append_assoc]
  · simp [h0, List.append_assoc]

/-- C8 witness: `expireAfter = 10` and an incoming cookie byte-identical to
    the re-encoded one: the cookie is still set, with expiry
    `now + 10 * 1000`. -/
theorem c8_witness :
    cookieAndDecode utilsZZ cfgExp storeXY (some "x--y--zz") =
      (Except.ok (some 4), [Event.storeLoad "x--y"]) ∧
    appOk (some ((some 4 : Option Nat).getD 0)) = Except.ok (⟨7, []⟩, some 4) ∧
    (encodeSession utilsZZ cfgExp storeXY 4).1 = Except.ok "x--y--zz" ∧
    applyM utilsZZ cfgExp storeXY 0 appOk none (some "x--y--zz") 5 =
      (if some "x--y--zz" = (some "x--y--zz" : Option String) ∧ cfgExp.expireAfter = 0 then
        (Except.ok ⟨7, []⟩,
         [Event.storeLoad "x--y"] ++
           [Event.attach ((some 4 : Option Nat).getD 0),
            Event.callHandler (some ((some 4 : Option Nat).getD 0)),
            Event.storeSave 4])
       else
        (Except.ok { body := 7, setCookies := ([] : List (String × CookieOpts)) ++
            [(cfgExp.name,
              ⟨some "x--y--zz", cfgExp.path, cfgExp.domain,
               (if cfgExp.expireAfter = 0 then none
                else some (5 + cfgExp.expireAfter * 1000)),
               cfgExp.isHttpOnly, cfgExp.isSecure⟩)] },
         [Event.storeLoad "x--y"] ++
           [Event.attach ((some 4 : Option Nat).getD 0),
            Event.callHandler (some ((some 4 : Option Nat).getD 0)),
            Event.storeSave 4,
            Event.setCookie cfgExp.name
              ⟨some "x--y--zz", cfgExp.path, cfgExp.domain,
               (if cfgExp.expireAfter = 0 then none
                else some (5 + cfgExp.expireAfter * 1000)),
               cfgExp.isHttpOnly, cfgExp.isSecure⟩])) :=
  ⟨by decide, by decide, by decide,
   c8_skip_or_set_cookie utilsZZ cfgExp storeXY 0 appOk (some "x--y--zz") 5
     (some 4) [Event.storeLoad "x--y"] ⟨7, []⟩ 4 "x--y--zz"
     (by decide) (by decide) (by decide)⟩

end Mach
